import Mathlib

/-!
Shallow embedding of the vehicle-routing quickstart domain
(`vehicle-routing-fast/src/vehicle_routing/domain.py`).

Modelling conventions:
* Python `float` coordinates are modelled as exact rationals (`ℚ`); the
  transcendental haversine computation is carried out over `ℝ`.
* Python `datetime` / `timedelta` values are modelled as integer
  microseconds (`ℤ`), the exact resolution of Python's `timedelta`.
  `timedelta(seconds = n)` for an integer `n` becomes `1000000 * n`,
  `timedelta(minutes = -1)` becomes `-60000000`.
* Python `//` on `timedelta` is floor division of the microsecond counts,
  i.e. `Int.fdiv`.
* The global dict `_DRIVING_TIME_MATRIX` is passed explicitly as a value of
  type `DrivingTimeMatrix` (an association list with dict update semantics).
* Code that can raise a `TypeError` (adding a `timedelta` to `None`) is
  modelled with `Except Unit`, `.error ()` standing for the raised exception.
* The methods that consume `Location.driving_time_to` (arrival-time
  propagation and the `Vehicle` aggregates) are parametrised by the
  travel-time function `D : Location → Location → ℤ`, exactly as the Python
  methods treat `driving_time_to` as a black box; instantiating `D` with
  `driving_time_to m` recovers the concrete program.
-/

/-- Geographic location, `Location` in `domain.py`: a latitude/longitude pair. -/
structure Location where
  latitude : ℚ
  longitude : ℚ
deriving DecidableEq

/-- Earth radius in meters (`Location._EARTH_RADIUS_M`). -/
def EARTH_RADIUS_M : ℤ := 6371000

/-- Twice the Earth radius (`Location._TWICE_EARTH_RADIUS_M`). -/
def TWICE_EARTH_RADIUS_M : ℤ := 2 * EARTH_RADIUS_M

/-- Average driving speed assumption in km/h (`Location._AVERAGE_SPEED_KMPH`). -/
def AVERAGE_SPEED_KMPH : ℤ := 50

/-- `Location._to_cartesian`: convert latitude/longitude (degrees) to 3D
Cartesian coordinates on a sphere of diameter 1.0.  `math.radians d` is
`d * π / 180`. -/
noncomputable def to_cartesian (l : Location) : ℝ × ℝ × ℝ :=
  ((1 / 2) * Real.cos ((l.latitude : ℝ) * Real.pi / 180) * Real.sin ((l.longitude : ℝ) * Real.pi / 180),
   (1 / 2) * Real.cos ((l.latitude : ℝ) * Real.pi / 180) * Real.cos ((l.longitude : ℝ) * Real.pi / 180),
   (1 / 2) * Real.sin ((l.latitude : ℝ) * Real.pi / 180))

/-- `Location._calculate_distance`: great-circle distance in meters between
two Cartesian points, `round(_TWICE_EARTH_RADIUS_M * asin(sqrt(dx²+dy²+dz²)))`. -/
noncomputable def calculate_distance (f t : ℝ × ℝ × ℝ) : ℤ :=
  round ((TWICE_EARTH_RADIUS_M : ℝ) *
    Real.arcsin (Real.sqrt
      ((f.1 - t.1) * (f.1 - t.1) + (f.2.1 - t.2.1) * (f.2.1 - t.2.1) +
        (f.2.2 - t.2.2) * (f.2.2 - t.2.2))))

/-- `Location._meters_to_driving_seconds`: `round(meters / 50 * 3.6)`. -/
noncomputable def meters_to_driving_seconds (meters : ℤ) : ℤ :=
  round ((meters : ℝ) / (AVERAGE_SPEED_KMPH : ℝ) * (36 / 10))

/-- `Location._calculate_driving_time_haversine`: 0 for identical coordinates
(the short-circuit before any trigonometry), otherwise the haversine travel
time in seconds. -/
noncomputable def calculate_driving_time_haversine (a b : Location) : ℤ :=
  if a.latitude = b.latitude ∧ a.longitude = b.longitude then 0
  else meters_to_driving_seconds (calculate_distance (to_cartesian a) (to_cartesian b))

/-- `_get_matrix_key`: the dict key `(from_lat, from_lng, to_lat, to_lng)`. -/
def get_matrix_key (from_loc to_loc : Location) : ℚ × ℚ × ℚ × ℚ :=
  (from_loc.latitude, from_loc.longitude, to_loc.latitude, to_loc.longitude)

/-- The global `_DRIVING_TIME_MATRIX` dict, modelled as an association list. -/
abbrev DrivingTimeMatrix : Type := List ((ℚ × ℚ × ℚ × ℚ) × ℤ)

/-- Dict write `m[key] = value`: overwrite the entry if the key is present,
otherwise append a new entry. -/
def matrix_set (m : DrivingTimeMatrix) (k : ℚ × ℚ × ℚ × ℚ) (v : ℤ) : DrivingTimeMatrix :=
  if m.any (fun e => decide (e.1 = k)) then
    m.map (fun e => if e.1 = k then (k, v) else e)
  else
    m ++ [(k, v)]

/-- Dict lookup: `matrix[key]` when `key in matrix`, `none` otherwise. -/
def matrix_find (m : DrivingTimeMatrix) (k : ℚ × ℚ × ℚ × ℚ) : Option ℤ :=
  (m.find? (fun e => decide (e.1 = k))).map (fun e => e.2)

/-- `Location.driving_time_to`: O(1) matrix lookup when the key is present,
on-demand haversine computation otherwise. -/
noncomputable def driving_time_to (m : DrivingTimeMatrix) (a b : Location) : ℤ :=
  match matrix_find m (get_matrix_key a b) with
  | some v => v
  | none => calculate_driving_time_haversine a b

/-- `init_driving_time_matrix`: rebuild the matrix from scratch with the
haversine value for every ordered pair of the given locations. -/
noncomputable def init_driving_time_matrix (locations : List Location) : DrivingTimeMatrix :=
  locations.foldl
    (fun m from_loc =>
      locations.foldl
        (fun m2 to_loc =>
          matrix_set m2 (get_matrix_key from_loc to_loc)
            (calculate_driving_time_haversine from_loc to_loc))
        m)
    []

/-- `clear_driving_time_matrix`: reset the global matrix to the empty dict. -/
def clear_driving_time_matrix : DrivingTimeMatrix := []

/-- `is_driving_time_matrix_initialized`: `len(_DRIVING_TIME_MATRIX) > 0`. -/
def is_driving_time_matrix_initialized (m : DrivingTimeMatrix) : Bool :=
  decide (0 < m.length)

/-- Validity of coordinates as stated in the spec: latitude in [-90, 90],
longitude in [-180, 180]. -/
def valid_coordinates (l : Location) : Prop :=
  -90 ≤ l.latitude ∧ l.latitude ≤ 90 ∧ -180 ≤ l.longitude ∧ l.longitude ≤ 180

instance (l : Location) : Decidable (valid_coordinates l) := by
  unfold valid_coordinates; infer_instance

/-- Microseconds in one minute: `timedelta(minutes=-1)` is `-MICROS_PER_MINUTE`. -/
def MICROS_PER_MINUTE : ℤ := 60000000

/-- Microseconds in one second: `timedelta(seconds=n)` is `n * MICROS_PER_SECOND`. -/
def MICROS_PER_SECOND : ℤ := 1000000

/-- `Visit` in `domain.py`, with datetimes in integer microseconds.  The
planning-framework shadow fields `vehicle`, `previous_visit`, `next_visit`
are supplied to `update_arrival_time` explicitly; `arrival_time` is the
cascading shadow value (null is `none`). -/
structure Visit where
  location : Location
  demand : ℤ
  min_start_time : ℤ
  max_end_time : ℤ
  service_duration : ℤ
  arrival_time : Option ℤ
deriving DecidableEq

/-- `Vehicle` in `domain.py`: home location, departure time and the planning
list variable `visits`. -/
structure Vehicle where
  capacity : ℤ
  home_location : Location
  departure_time : ℤ
  visits : List Visit
deriving DecidableEq

/-- `Visit.calculate_departure_time`: `None` when `arrival_time` is `None`,
otherwise `max(arrival_time, min_start_time) + service_duration`. -/
def calculate_departure_time (v : Visit) : Option ℤ :=
  match v.arrival_time with
  | none => none
  | some t => some (max t v.min_start_time + v.service_duration)

/-- `Visit.service_finished_delay_in_minutes`: 0 when `arrival_time` is
`None`; otherwise `-((calculate_departure_time() - max_end_time) //
timedelta(minutes=-1))`, where `//` is floor division (`Int.fdiv`).  When
`arrival_time = some t`, `calculate_departure_time()` is
`max t min_start_time + service_duration` (lemma
`calculate_departure_time_some` below). -/
def service_finished_delay_in_minutes (v : Visit) : ℤ :=
  match v.arrival_time with
  | none => 0
  | some t =>
      -(Int.fdiv (max t v.min_start_time + v.service_duration - v.max_end_time)
        (-MICROS_PER_MINUTE))

/-- `Visit.is_service_finished_after_max_end_time`: arrival is non-null and
the completion time strictly exceeds `max_end_time`. -/
def is_service_finished_after_max_end_time (v : Visit) : Prop :=
  match v.arrival_time with
  | none => False
  | some t => max t v.min_start_time + v.service_duration > v.max_end_time

/-- `Visit.update_arrival_time`, the cascading-shadow-variable target method.
It reads `self.vehicle` (the owning vehicle, if any), `self.previous_visit`
and `self.location`, and returns the new `arrival_time`.  The Python body
would raise a `TypeError` (`None + timedelta`) if it ever added a travel
`timedelta` to a `None` departure time of the previous visit; that raise is
modelled as `.error ()`. -/
def update_arrival_time (D : Location → Location → ℤ) (vehicle : Option Vehicle)
    (previous_visit : Option Visit) (location : Location) : Except Unit (Option ℤ) :=
  match vehicle, previous_visit with
  | none, _ => .ok none
  | some v, none =>
      .ok (some (v.departure_time + MICROS_PER_SECOND * D v.home_location location))
  | some _, some p =>
      match p.arrival_time with
      | none => .ok none
      | some _ =>
          match calculate_departure_time p with
          | none => .error ()
          | some dep => .ok (some (dep + MICROS_PER_SECOND * D p.location location))

/-- Replace a visit's shadow `arrival_time` (the assignment
`self.arrival_time = ...` performed by `update_arrival_time`). -/
def set_arrival (v : Visit) (a : Option ℤ) : Visit :=
  { v with arrival_time := a }

/-- Chain propagation along a vehicle's visit list: the planning framework
calls `update_arrival_time` on each visit in sequence order, each call seeing
the owning vehicle and the freshly updated previous visit. -/
def propagate_visits (D : Location → Location → ℤ) (veh : Vehicle)
    (previous_visit : Option Visit) : List Visit → Except Unit (List Visit)
  | [] => .ok []
  | v :: rest =>
      match update_arrival_time D (some veh) previous_visit v.location with
      | .error e => .error e
      | .ok a =>
          match propagate_visits D veh (some (set_arrival v a)) rest with
          | .error e => .error e
          | .ok tail => .ok (set_arrival v a :: tail)

/-- Propagation over a whole vehicle: the first visit has no previous visit. -/
def propagate (D : Location → Location → ℤ) (veh : Vehicle) : Except Unit (List Visit) :=
  propagate_visits D veh none veh.visits

/-- `Vehicle.arrival_time` (the finish-time property): `departure_time` when
there are no visits, otherwise `visits[-1].departure_time +
timedelta(seconds=driving_time(last, home))`.  Adding the `timedelta` to a
`None` departure time raises a `TypeError`, modelled as `.error ()`. -/
def vehicle_arrival_time (D : Location → Location → ℤ) (veh : Vehicle) : Except Unit ℤ :=
  match veh.visits.getLast? with
  | none => .ok veh.departure_time
  | some last =>
      match calculate_departure_time last with
      | none => .error ()
      | some dep => .ok (dep + MICROS_PER_SECOND * D last.location veh.home_location)

/-- The `for visit in self.visits` loop of
`Vehicle.calculate_total_driving_time_seconds`: threads the accumulated total
and the previous standstill location through the visit list. -/
def total_driving_time_loop (D : Location → Location → ℤ) :
    ℤ → Location → List Visit → ℤ × Location
  | total, prev, [] => (total, prev)
  | total, prev, v :: rest =>
      total_driving_time_loop D (total + D prev v.location) v.location rest

/-- `Vehicle.calculate_total_driving_time_seconds`: 0 when `visits` is empty,
otherwise the loop total plus the return leg to the home location. -/
def calculate_total_driving_time_seconds (D : Location → Location → ℤ) (veh : Vehicle) : ℤ :=
  match veh.visits with
  | [] => 0
  | _ =>
      (total_driving_time_loop D 0 veh.home_location veh.visits).1 +
        D (total_driving_time_loop D 0 veh.home_location veh.visits).2 veh.home_location

/-- Concrete counterexample visit for the delay claim: arrival at minute 8,
no service, window closing at minute 10, so completion precedes
`max_end_time` by exactly 2 minutes. -/
def cx1_visit : Visit :=
  { location := ⟨0, 0⟩, demand := 0, min_start_time := 0, max_end_time := 600000000,
    service_duration := 0, arrival_time := some 480000000 }

/-- Concrete witness visit for the delay claim: completion exceeds
`max_end_time` by 90 seconds (1.5 minutes). -/
def w1_visit : Visit :=
  { location := ⟨0, 0⟩, demand := 0, min_start_time := 0, max_end_time := 600000000,
    service_duration := 60000000, arrival_time := some 630000000 }

/-- Constant travel-time function used by the propagation witness. -/
def D2 : Location → Location → ℤ := fun _ _ => 100

/-- First witness visit of the propagation witness vehicle. -/
def vA2 : Visit :=
  { location := ⟨1, 1⟩, demand := 1, min_start_time := 500, max_end_time := 1000000000000,
    service_duration := 60, arrival_time := none }

/-- Second witness visit of the propagation witness vehicle. -/
def vB2 : Visit :=
  { location := ⟨2, 2⟩, demand := 2, min_start_time := 0, max_end_time := 1000000000000,
    service_duration := 30, arrival_time := none }

/-- Witness vehicle with two visits for the propagation claim. -/
def veh2 : Vehicle :=
  { capacity := 10, home_location := ⟨0, 0⟩, departure_time := 0, visits := [vA2, vB2] }

/-- The visit states produced by propagation over `veh2` with travel times `D2`. -/
def states2 : List Visit :=
  [set_arrival vA2 (some 100000000), set_arrival vB2 (some 200000060)]

/-- Constant travel-time function used by the null-propagation witness. -/
def D3 : Location → Location → ℤ := fun _ _ => 7

/-- Location used by the null-propagation witness. -/
def loc3 : Location := ⟨5, 5⟩

/-- Constant travel-time function used by the total-driving-time witness. -/
def D7 : Location → Location → ℤ := fun _ _ => 10

/-- First visit of the total-driving-time witness vehicle. -/
def vA7 : Visit :=
  { location := ⟨1, 0⟩, demand := 1, min_start_time := 0, max_end_time := 1000,
    service_duration := 0, arrival_time := none }

/-- Second visit of the total-driving-time witness vehicle. -/
def vB7 : Visit :=
  { location := ⟨0, 1⟩, demand := 1, min_start_time := 0, max_end_time := 1000,
    service_duration := 0, arrival_time := none }

/-- Witness vehicle with two visits for the total-driving-time claim. -/
def veh7 : Vehicle :=
  { capacity := 5, home_location := ⟨0, 0⟩, departure_time := 0, visits := [vA7, vB7] }

/-- Constant travel-time function used by the finish-time witness. -/
def D8 : Location → Location → ℤ := fun _ _ => 42

/-- Visit with a known arrival time for the finish-time witness vehicle. -/
def v8 : Visit :=
  { location := ⟨3, 3⟩, demand := 1, min_start_time := 50, max_end_time := 100000000,
    service_duration := 60, arrival_time := some 100 }

/-- Witness vehicle with a single arrived visit for the finish-time claim. -/
def veh8 : Vehicle :=
  { capacity := 5, home_location := ⟨0, 0⟩, departure_time := 77, visits := [v8] }

/-- Witness locations for the symmetry claim. -/
def L5a : Location := ⟨0, 0⟩

/-- Second witness location for the symmetry claim. -/
def L5b : Location := ⟨3, 4⟩

/-- Invariant of the driving-time matrix: every stored entry is the
haversine value of the locations encoded in its key. -/
def matrix_consistent (m : DrivingTimeMatrix) : Prop :=
  ∀ la lo lb lo2 v, ((la, lo, lb, lo2), v) ∈ m →
    v = calculate_driving_time_haversine ⟨la, lo⟩ ⟨lb, lo2⟩

/-- When `arrival_time = some t`, `calculate_departure_time` is
`max t min_start_time + service_duration`. -/
theorem calculate_departure_time_some {v : Visit} {t : ℤ} (h : v.arrival_time = some t) :
    calculate_departure_time v = some (max t v.min_start_time + v.service_duration) := by
  simp [calculate_departure_time, h]

/-- Floor division by `-MICROS_PER_MINUTE`, negated, is bounded like a
ceiling: the Python idiom `-(d // timedelta(minutes=-1))` computes the least
integer `q` with `d ≤ MICROS_PER_MINUTE * q`. -/
theorem fdiv_neg_minute_bounds (d : ℤ) :
    MICROS_PER_MINUTE * (-(Int.fdiv d (-MICROS_PER_MINUTE)) - 1) < d ∧
    d ≤ MICROS_PER_MINUTE * (-(Int.fdiv d (-MICROS_PER_MINUTE))) := by
  unfold MICROS_PER_MINUTE
  cases d with
  | ofNat n =>
    cases n with
    | zero => decide
    | succ m =>
      have h1 : Int.fdiv (Int.ofNat (m+1)) (-60000000) = Int.negSucc (m / 60000000) := rfl
      rw [h1]
      simp only [Int.negSucc_eq, Int.ofNat_eq_coe]
      push_cast
      omega
  | negSucc m =>
    have h1 : Int.fdiv (Int.negSucc m) (-60000000) = Int.ofNat ((m+1) / 60000000) := rfl
    rw [h1]
    simp only [Int.negSucc_eq, Int.ofNat_eq_coe]
    push_cast
    omega

/-- The Python idiom `-(d // timedelta(minutes=-1))` equals the ceiling of
`d` measured in minutes. -/
theorem neg_fdiv_neg_minute_eq_ceil (d : ℤ) :
    -(Int.fdiv d (-MICROS_PER_MINUTE)) = ⌈(d : ℚ) / (MICROS_PER_MINUTE : ℚ)⌉ := by
  obtain ⟨h1, h2⟩ := fdiv_neg_minute_bounds d
  have hpos : (0 : ℚ) < (MICROS_PER_MINUTE : ℚ) := by unfold MICROS_PER_MINUTE; norm_num
  symm
  rw [Int.ceil_eq_iff]
  constructor
  · rw [lt_div_iff₀ hpos]
    have hc : ((MICROS_PER_MINUTE * (-(Int.fdiv d (-MICROS_PER_MINUTE)) - 1) : ℤ) : ℚ) <
        ((d : ℤ) : ℚ) := by exact_mod_cast h1
    push_cast at hc ⊢
    linarith
  · rw [div_le_iff₀ hpos]
    have hc : ((d : ℤ) : ℚ) ≤
        ((MICROS_PER_MINUTE * (-(Int.fdiv d (-MICROS_PER_MINUTE))) : ℤ) : ℚ) := by
      exact_mod_cast h2
    push_cast at hc ⊢
    linarith

/-- `update_arrival_time` always returns normally (no branch reaches the
modelled `TypeError`). -/
theorem update_arrival_time_ok (D : Location → Location → ℤ) (vehicle : Option Vehicle)
    (previous_visit : Option Visit) (location : Location) :
    ∃ r, update_arrival_time D vehicle previous_visit location = .ok r := by
  match vehicle, previous_visit with
  | none, _ => exact ⟨none, rfl⟩
  | some v, none => exact ⟨_, rfl⟩
  | some v, some p =>
    match hp : p.arrival_time with
    | none => exact ⟨none, by simp [update_arrival_time, hp]⟩
    | some t =>
      refine ⟨some (max t p.min_start_time + p.service_duration +
        MICROS_PER_SECOND * D p.location location), ?_⟩
      simp [update_arrival_time, calculate_departure_time, hp]

/-- Inversion of one propagation step. -/
theorem propagate_visits_cons {D : Location → Location → ℤ} {veh : Vehicle}
    {prev : Option Visit} {v : Visit} {rest out : List Visit}
    (h : propagate_visits D veh prev (v :: rest) = .ok out) :
    ∃ a tail, update_arrival_time D (some veh) prev v.location = .ok a ∧
      propagate_visits D veh (some (set_arrival v a)) rest = .ok tail ∧
      out = set_arrival v a :: tail := by
  unfold propagate_visits at h
  split at h
  · exact absurd h (by simp)
  · rename_i a ha
    split at h
    · exact absurd h (by simp)
    · rename_i tail htail
      exact ⟨a, tail, ha, htail, by injection h with h2; exact h2.symm⟩

/-- The update performed for a visit whose previous visit has a known
arrival time. -/
theorem update_arrival_time_of_prev_some {D : Location → Location → ℤ} {veh : Vehicle}
    {p : Visit} {loc : Location} {t : ℤ} (ht : p.arrival_time = some t) :
    update_arrival_time D (some veh) (some p) loc =
      .ok (some (max t p.min_start_time + p.service_duration +
        MICROS_PER_SECOND * D p.location loc)) := by
  simp [update_arrival_time, calculate_departure_time, ht]

/-- The first visit produced by propagation with a known previous visit
satisfies the previous-departure-plus-travel equation. -/
theorem propagate_visits_head_of_prev {D : Location → Location → ℤ} {veh : Vehicle}
    {p : Visit} {l out : List Visit} {q : Visit} {tail2 : List Visit}
    (h : propagate_visits D veh (some p) l = .ok out) (hout : out = q :: tail2)
    {t : ℤ} (ht : p.arrival_time = some t) :
    q.arrival_time = some (max t p.min_start_time + p.service_duration +
      MICROS_PER_SECOND * D p.location q.location) := by
  subst hout
  cases l with
  | nil => simp [propagate_visits] at h
  | cons w rest =>
    obtain ⟨a, tail, hu, hp, heq⟩ := propagate_visits_cons h
    rw [update_arrival_time_of_prev_some ht] at hu
    injection hu with hu
    injection heq with h1 h2
    subst h1
    subst hu
    rfl

/-- Any two adjacent visits in a propagation result satisfy the
previous-departure-plus-travel equation when the earlier one has a non-null
arrival time. -/
theorem propagate_visits_adjacent {D : Location → Location → ℤ} {veh : Vehicle} :
    ∀ (l : List Visit) (prev : Option Visit) (out : List Visit),
      propagate_visits D veh prev l = .ok out →
      ∀ (pre : List Visit) (p q : Visit) (post : List Visit), out = pre ++ p :: q :: post →
      ∀ t, p.arrival_time = some t →
      q.arrival_time = some (max t p.min_start_time + p.service_duration +
        MICROS_PER_SECOND * D p.location q.location)
  | [], prev, out, h, pre, p, q, post, heq, t, ht => by
      simp only [propagate_visits, Except.ok.injEq] at h
      subst h
      exact absurd heq (by simp)
  | v :: rest, prev, out, h, pre, p, q, post, heq, t, ht => by
      obtain ⟨a, tail, hu, hp, rfl⟩ := propagate_visits_cons h
      cases pre with
      | nil =>
        injection heq with h1 h2
        subst h1
        exact propagate_visits_head_of_prev hp h2 ht
      | cons p0 pre2 =>
        injection heq with h1 h2
        exact propagate_visits_adjacent rest (some (set_arrival v a)) tail hp pre2 p q post h2 t ht

/-- Propagation never returns the modelled exception. -/
theorem propagate_visits_ok (D : Location → Location → ℤ) (veh : Vehicle) :
    ∀ (l : List Visit) (prev : Option Visit),
      ∃ out, propagate_visits D veh prev l = .ok out
  | [], _ => ⟨[], rfl⟩
  | v :: rest, prev => by
      obtain ⟨a, ha⟩ := update_arrival_time_ok D (some veh) prev v.location
      obtain ⟨tail, htail⟩ := propagate_visits_ok D veh rest (some (set_arrival v a))
      exact ⟨set_arrival v a :: tail, by
        unfold propagate_visits
        simp only [ha, htail]⟩

/-- The first visit produced by whole-vehicle propagation satisfies the
departure-plus-travel-from-home equation. -/
theorem propagate_first {D : Location → Location → ℤ} {veh : Vehicle} {states : List Visit}
    (h : propagate D veh = .ok states) {v0 : Visit} {rest : List Visit}
    (heq : states = v0 :: rest) :
    v0.arrival_time = some (veh.departure_time +
      MICROS_PER_SECOND * D veh.home_location v0.location) := by
  subst heq
  unfold propagate at h
  cases hv : veh.visits with
  | nil => rw [hv] at h; simp [propagate_visits] at h
  | cons w r =>
    rw [hv] at h
    obtain ⟨a, tail, hu, hp, heq2⟩ := propagate_visits_cons h
    have ha : a = some (veh.departure_time +
        MICROS_PER_SECOND * D veh.home_location w.location) := by
      simp only [update_arrival_time, Except.ok.injEq] at hu
      exact hu.symm
    injection heq2 with h1 h2
    subst h1
    subst ha
    rfl

/-- The running total of the driving-time loop over a non-empty visit list is
the leg from the previous standstill to the first visit plus the legs between
consecutive visits. -/
theorem total_driving_time_loop_fst (D : Location → Location → ℤ) :
    ∀ (l : List Visit) (v : Visit) (prev : Location) (total : ℤ),
      (total_driving_time_loop D total prev (v :: l)).1 =
        total + D prev v.location +
          (((v :: l).zip l).map (fun pq => D pq.1.location pq.2.location)).sum
  | [], v, prev, total => by
      simp [total_driving_time_loop]
  | w :: r, v, prev, total => by
      have ih := total_driving_time_loop_fst D r w v.location (total + D prev v.location)
      simp only [total_driving_time_loop] at ih ⊢
      rw [ih]
      simp [List.zip_cons_cons]
      ring

/-- The previous-standstill location after the driving-time loop over a
non-empty visit list is the last visit's location. -/
theorem total_driving_time_loop_snd (D : Location → Location → ℤ) :
    ∀ (l : List Visit) (v : Visit) (prev : Location) (total : ℤ) (lst : Visit),
      (v :: l).getLast? = some lst →
      (total_driving_time_loop D total prev (v :: l)).2 = lst.location
  | [], v, prev, total, lst, h => by
      simp at h
      subst h
      rfl
  | w :: r, v, prev, total, lst, h => by
      rw [List.getLast?_cons_cons] at h
      exact total_driving_time_loop_snd D r w v.location (total + D prev v.location) lst h

/-- An entry of the dict after a write is either an old entry or the written
pair. -/
theorem matrix_set_mem {m : DrivingTimeMatrix} {k : ℚ × ℚ × ℚ × ℚ} {v : ℤ}
    {e : (ℚ × ℚ × ℚ × ℚ) × ℤ} (he : e ∈ matrix_set m k v) :
    e ∈ m ∨ e = (k, v) := by
  unfold matrix_set at he
  split at he
  · obtain ⟨x, hx, hfx⟩ := List.mem_map.mp he
    by_cases hk : x.1 = k
    · right; rw [if_pos hk] at hfx; exact hfx.symm
    · left; rw [if_neg hk] at hfx; exact hfx ▸ hx
  · rcases List.mem_append.mp he with h | h
    · left; exact h
    · right; simpa using h

/-- Writing a haversine value under its own key preserves the matrix
invariant. -/
theorem matrix_consistent_set {m : DrivingTimeMatrix} (a b : Location)
    (hm : matrix_consistent m) :
    matrix_consistent
      (matrix_set m (get_matrix_key a b) (calculate_driving_time_haversine a b)) := by
  intro la lo lb lo2 v hmem
  rcases matrix_set_mem hmem with h | h
  · exact hm la lo lb lo2 v h
  · injection h with h1 h2
    injection h1 with ha h1
    injection h1 with hb h1
    injection h1 with hc hd
    subst ha; subst hb; subst hc; subst hd; subst h2
    rfl

/-- The inner loop of `init_driving_time_matrix` preserves the matrix
invariant. -/
theorem matrix_consistent_inner_fold (from_loc : Location) :
    ∀ (locs : List Location) (m : DrivingTimeMatrix), matrix_consistent m →
      matrix_consistent
        (locs.foldl
          (fun m2 to_loc =>
            matrix_set m2 (get_matrix_key from_loc to_loc)
              (calculate_driving_time_haversine from_loc to_loc))
          m)
  | [], _, hm => hm
  | t :: rest, _, hm =>
      matrix_consistent_inner_fold from_loc rest _ (matrix_consistent_set from_loc t hm)

/-- Every matrix built by `init_driving_time_matrix` satisfies the matrix
invariant. -/
theorem matrix_consistent_init (locations : List Location) :
    matrix_consistent (init_driving_time_matrix locations) := by
  unfold init_driving_time_matrix
  have h : ∀ (outer : List Location) (m0 : DrivingTimeMatrix), matrix_consistent m0 →
      matrix_consistent
        (outer.foldl
          (fun m from_loc =>
            locations.foldl
              (fun m2 to_loc =>
                matrix_set m2 (get_matrix_key from_loc to_loc)
                  (calculate_driving_time_haversine from_loc to_loc))
              m)
          m0) := by
    intro outer
    induction outer with
    | nil => exact fun _ hm => hm
    | cons f rest ih =>
      intro m0 hm
      exact ih _ (matrix_consistent_inner_fold f locations m0 hm)
  exact h locations [] (by intro la lo lb lo2 v hmem; simp at hmem)

/-- A successful dict lookup exposes a stored entry with the looked-up key. -/
theorem matrix_find_some {m : DrivingTimeMatrix} {k : ℚ × ℚ × ℚ × ℚ} {v : ℤ}
    (h : matrix_find m k = some v) : (k, v) ∈ m := by
  unfold matrix_find at h
  cases hf : m.find? (fun e => decide (e.1 = k)) with
  | none => rw [hf] at h; simp at h
  | some e =>
    rw [hf] at h
    have h2 : some e.2 = some v := h
    injection h2 with h2
    have hp := List.find?_some (p := fun x : (ℚ × ℚ × ℚ × ℚ) × ℤ => decide (x.1 = k)) hf
    have hk : e.1 = k := of_decide_eq_true hp
    have hmem := List.mem_of_find?_eq_some hf
    have he : e = (k, v) := by
      cases e with
      | mk e1 e2 => simp only [Prod.mk.injEq]; exact ⟨hk, h2⟩
    exact he ▸ hmem

/-- After `init_driving_time_matrix P`, every `driving_time_to` query equals
the on-demand haversine computation, whether it hits the matrix or not. -/
theorem driving_time_to_init_eq (P : List Location) (a b : Location) :
    driving_time_to (init_driving_time_matrix P) a b =
      calculate_driving_time_haversine a b := by
  unfold driving_time_to
  cases hf : matrix_find (init_driving_time_matrix P) (get_matrix_key a b) with
  | none => rfl
  | some v =>
    have hmem := matrix_find_some hf
    exact matrix_consistent_init P a.latitude a.longitude b.latitude b.longitude v hmem

/-- The squared Euclidean distance is symmetric, hence so is
`calculate_distance`. -/
theorem calculate_distance_symm (p q : ℝ × ℝ × ℝ) :
    calculate_distance p q = calculate_distance q p := by
  unfold calculate_distance
  have h : (p.1 - q.1) * (p.1 - q.1) + (p.2.1 - q.2.1) * (p.2.1 - q.2.1) +
      (p.2.2 - q.2.2) * (p.2.2 - q.2.2) =
      (q.1 - p.1) * (q.1 - p.1) + (q.2.1 - p.2.1) * (q.2.1 - p.2.1) +
      (q.2.2 - p.2.2) * (q.2.2 - p.2.2) := by ring
  rw [h]

/-- The haversine travel time is symmetric in its two endpoints. -/
theorem haversine_symm (a b : Location) :
    calculate_driving_time_haversine a b = calculate_driving_time_haversine b a := by
  unfold calculate_driving_time_haversine
  by_cases h : a.latitude = b.latitude ∧ a.longitude = b.longitude
  · rw [if_pos h, if_pos ⟨h.1.symm, h.2.symm⟩]
  · have h2 : ¬(b.latitude = a.latitude ∧ b.longitude = a.longitude) := by
      intro hc
      exact h ⟨hc.1.symm, hc.2.symm⟩
    rw [if_neg h, if_neg h2, calculate_distance_symm]

/-- The haversine travel time from a location to itself is 0, by the
identical-coordinates short-circuit. -/
theorem haversine_self (a : Location) : calculate_driving_time_haversine a a = 0 := by
  unfold calculate_driving_time_haversine
  rw [if_pos ⟨rfl, rfl⟩]

/-- C1, counterexample: a visit whose arrival time is non-null and whose
completion time (480000000 us = minute 8) is at most `max_end_time`
(600000000 us = minute 10), yet `service_finished_delay_in_minutes` returns
-2, not the 0 the claim requires for that case. -/
theorem claim_C1_counterexample :
    cx1_visit.arrival_time = some 480000000 ∧
    calculate_departure_time cx1_visit = some 480000000 ∧
    480000000 ≤ cx1_visit.max_end_time ∧
    service_finished_delay_in_minutes cx1_visit = -2 ∧
    service_finished_delay_in_minutes cx1_visit ≠ 0 :=
  ⟨rfl, rfl, by decide, by decide, by decide⟩

/-- C1, amended: for a visit with null `arrival_time` the delay is 0; for a
visit with non-null `arrival_time` the delay is the ceiling of
(completion time - `max_end_time`) in minutes - in particular it is at least
1 whenever completion strictly exceeds `max_end_time` (a 30-second overage
counts as 1 minute), but it is the possibly negative ceiling, not 0, when
completion is at or before `max_end_time`. -/
theorem claim_C1_delay_is_ceiling (v : Visit) :
    (v.arrival_time = none → service_finished_delay_in_minutes v = 0) ∧
    (∀ t, v.arrival_time = some t →
      service_finished_delay_in_minutes v =
        ⌈((max t v.min_start_time + v.service_duration - v.max_end_time : ℤ) : ℚ) /
          (MICROS_PER_MINUTE : ℚ)⌉ ∧
      (v.max_end_time < max t v.min_start_time + v.service_duration →
        1 ≤ service_finished_delay_in_minutes v)) := by
  constructor
  · intro h
    simp [service_finished_delay_in_minutes, h]
  · intro t ht
    have hd : service_finished_delay_in_minutes v =
        -(Int.fdiv (max t v.min_start_time + v.service_duration - v.max_end_time)
          (-MICROS_PER_MINUTE)) := by
      simp [service_finished_delay_in_minutes, ht]
    constructor
    · rw [hd, neg_fdiv_neg_minute_eq_ceil]
    · intro hlt
      obtain ⟨h1, h2⟩ :=
        fdiv_neg_minute_bounds (max t v.min_start_time + v.service_duration - v.max_end_time)
      rw [hd]
      unfold MICROS_PER_MINUTE at h1 h2 ⊢
      omega

/-- C1, witness: the amended theorem applied to a concrete visit whose
completion exceeds `max_end_time` by 90 seconds; the delay is the minute
ceiling and is at least 1. -/
theorem claim_C1_witness :
    service_finished_delay_in_minutes w1_visit =
      ⌈((max 630000000 w1_visit.min_start_time + w1_visit.service_duration -
          w1_visit.max_end_time : ℤ) : ℚ) / (MICROS_PER_MINUTE : ℚ)⌉ ∧
    1 ≤ service_finished_delay_in_minutes w1_visit :=
  ⟨((claim_C1_delay_is_ceiling w1_visit).2 630000000 rfl).1,
   ((claim_C1_delay_is_ceiling w1_visit).2 630000000 rfl).2 (by decide)⟩

/-- C2: after propagation over a vehicle, the first visit's arrival time is
the vehicle's departure time plus the travel time (in seconds) from the home
location, and every visit whose predecessor has a non-null arrival time
arrives at the predecessor's departure time
(max(arrival, min_start) + service_duration) plus the travel time from the
predecessor's location. -/
theorem claim_C2_arrival_equations (D : Location → Location → ℤ) (veh : Vehicle)
    (states : List Visit) (hok : propagate D veh = .ok states) :
    (∀ v0 rest, states = v0 :: rest →
        v0.arrival_time = some (veh.departure_time +
          MICROS_PER_SECOND * D veh.home_location v0.location)) ∧
    (∀ pre p q post, states = pre ++ p :: q :: post → ∀ t, p.arrival_time = some t →
        q.arrival_time = some (max t p.min_start_time + p.service_duration +
          MICROS_PER_SECOND * D p.location q.location)) := by
  constructor
  · intro v0 rest heq
    exact propagate_first hok heq
  · intro pre p q post heq t ht
    exact propagate_visits_adjacent veh.visits none states hok pre p q post heq t ht

/-- C2, witness: propagation over the concrete two-visit vehicle `veh2` with
constant travel times `D2` yields the claimed first-visit and
successor-visit arrival equations. -/
theorem claim_C2_witness :
    (set_arrival vA2 (some 100000000)).arrival_time =
      some (veh2.departure_time +
        MICROS_PER_SECOND * D2 veh2.home_location (set_arrival vA2 (some 100000000)).location) ∧
    (set_arrival vB2 (some 200000060)).arrival_time =
      some (max 100000000 (set_arrival vA2 (some 100000000)).min_start_time +
        (set_arrival vA2 (some 100000000)).service_duration +
        MICROS_PER_SECOND * D2 (set_arrival vA2 (some 100000000)).location
          (set_arrival vB2 (some 200000060)).location) :=
  ⟨(claim_C2_arrival_equations D2 veh2 states2 rfl).1 _ _ rfl,
   (claim_C2_arrival_equations D2 veh2 states2 rfl).2 [] _ _ [] rfl 100000000 rfl⟩

/-- C3: `update_arrival_time` never raises - it always returns normally, and
when the visit has no owning vehicle, or its predecessor exists with a null
arrival time, it sets the arrival time to null instead of computing from the
undefined upstream value. -/
theorem claim_C3_update_never_raises (D : Location → Location → ℤ)
    (vehicle : Option Vehicle) (previous_visit : Option Visit) (location : Location) :
    ((vehicle = none ∨ ∃ p, previous_visit = some p ∧ p.arrival_time = none) →
      update_arrival_time D vehicle previous_visit location = .ok none) ∧
    ∃ r, update_arrival_time D vehicle previous_visit location = .ok r := by
  constructor
  · rintro (rfl | ⟨p, rfl, hp⟩)
    · rfl
    · cases vehicle with
      | none => rfl
      | some v => simp [update_arrival_time, hp]
  · exact update_arrival_time_ok D vehicle previous_visit location

/-- C3, witness: the theorem applied to a visit with no owning vehicle sets
the arrival time to null without raising. -/
theorem claim_C3_witness :
    update_arrival_time D3 none none loc3 = .ok none :=
  (claim_C3_update_never_raises D3 none none loc3).1 (Or.inl rfl)

/-- C4: after `init_driving_time_matrix P`, every `driving_time_to` query
(hit or miss) returns exactly the pure on-demand haversine value, and with a
cleared matrix the query is the on-demand value as well; in particular a
miss falls back without erroring. -/
theorem claim_C4_matrix_on_demand_equivalence (P : List Location) (a b : Location) :
    driving_time_to (init_driving_time_matrix P) a b =
      calculate_driving_time_haversine a b ∧
    driving_time_to clear_driving_time_matrix a b =
      calculate_driving_time_haversine a b :=
  ⟨driving_time_to_init_eq P a b, rfl⟩

/-- C5: for valid coordinates the driving time is symmetric and the driving
time from a location to itself is 0 (via the identical-coordinates
short-circuit), both for the on-demand haversine computation and for
`driving_time_to` over any matrix built by `init_driving_time_matrix`. -/
theorem claim_C5_symmetry (a b : Location)
    (ha : valid_coordinates a) (hb : valid_coordinates b) :
    calculate_driving_time_haversine a b = calculate_driving_time_haversine b a ∧
    calculate_driving_time_haversine a a = 0 ∧
    ∀ P : List Location,
      driving_time_to (init_driving_time_matrix P) a b =
        driving_time_to (init_driving_time_matrix P) b a ∧
      driving_time_to (init_driving_time_matrix P) a a = 0 := by
  refine ⟨haversine_symm a b, haversine_self a, fun P => ⟨?_, ?_⟩⟩
  · rw [driving_time_to_init_eq, driving_time_to_init_eq, haversine_symm]
  · rw [driving_time_to_init_eq, haversine_self]

/-- C5, witness: symmetry and self-distance-zero at the concrete valid
locations (0,0) and (3,4). -/
theorem claim_C5_witness :
    calculate_driving_time_haversine L5a L5b = calculate_driving_time_haversine L5b L5a ∧
    calculate_driving_time_haversine L5a L5a = 0 :=
  ⟨(claim_C5_symmetry L5a L5b (by decide) (by decide)).1,
   (claim_C5_symmetry L5a L5b (by decide) (by decide)).2.1⟩

/-- C7: the total driving time of a vehicle is 0 when it has no visits
(no depot-to-depot trip), and otherwise is the home-to-first leg plus the
legs between consecutive visits plus the last-to-home leg. -/
theorem claim_C7_total_driving_time (D : Location → Location → ℤ) (veh : Vehicle) :
    (veh.visits = [] → calculate_total_driving_time_seconds D veh = 0) ∧
    (∀ v0 rest lst, veh.visits = v0 :: rest → veh.visits.getLast? = some lst →
      calculate_total_driving_time_seconds D veh =
        D veh.home_location v0.location +
          ((veh.visits.zip veh.visits.tail).map
            (fun pq => D pq.1.location pq.2.location)).sum +
          D lst.location veh.home_location) := by
  constructor
  · intro h
    simp [calculate_total_driving_time_seconds, h]
  · intro v0 rest lst hv hl
    rw [hv] at hl
    unfold calculate_total_driving_time_seconds
    rw [hv]
    have hfst := total_driving_time_loop_fst D rest v0 veh.home_location 0
    have hsnd := total_driving_time_loop_snd D rest v0 veh.home_location 0 lst hl
    rw [hfst, hsnd]
    simp

/-- C7, witness: the total-driving-time decomposition at the concrete
two-visit vehicle `veh7` with constant travel times `D7`. -/
theorem claim_C7_witness :
    calculate_total_driving_time_seconds D7 veh7 =
      D7 veh7.home_location vA7.location +
        ((veh7.visits.zip veh7.visits.tail).map
          (fun pq => D7 pq.1.location pq.2.location)).sum +
        D7 vB7.location veh7.home_location :=
  (claim_C7_total_driving_time D7 veh7).2 vA7 [vB7] vB7 rfl rfl

/-- C8: the vehicle finish time is the departure time when there are no
visits, and otherwise the last visit's completion time
(max(arrival, min_start) + service_duration) plus the return-trip travel
time to the home location. -/
theorem claim_C8_finish_time (D : Location → Location → ℤ) (veh : Vehicle) :
    (veh.visits = [] → vehicle_arrival_time D veh = .ok veh.departure_time) ∧
    (∀ lst t, veh.visits.getLast? = some lst → lst.arrival_time = some t →
      vehicle_arrival_time D veh =
        .ok (max t lst.min_start_time + lst.service_duration +
          MICROS_PER_SECOND * D lst.location veh.home_location)) := by
  constructor
  · intro h
    simp [vehicle_arrival_time, h]
  · intro lst t hl ht
    simp [vehicle_arrival_time, hl, calculate_departure_time, ht]

/-- C8, witness: the finish-time equation at the concrete one-visit vehicle
`veh8` whose visit has a known arrival time. -/
theorem claim_C8_witness :
    vehicle_arrival_time D8 veh8 =
      .ok (max 100 v8.min_start_time + v8.service_duration +
        MICROS_PER_SECOND * D8 v8.location veh8.home_location) :=
  (claim_C8_finish_time D8 veh8).2 v8 100 rfl rfl

/-- C9: `Vehicle.arrival_time` is partial - it raises (the modelled
`TypeError`) exactly when the visits list is non-empty and the last visit's
arrival time is null, and it returns a value exactly when the visits list is
empty or the last visit's arrival time is non-null. -/
theorem claim_C9_finish_time_partial (D : Location → Location → ℤ) (veh : Vehicle) :
    (vehicle_arrival_time D veh = .error () ↔
      ∃ lst, veh.visits.getLast? = some lst ∧ lst.arrival_time = none) ∧
    ((∃ r, vehicle_arrival_time D veh = .ok r) ↔
      veh.visits = [] ∨
        ∃ lst t, veh.visits.getLast? = some lst ∧ lst.arrival_time = some t) := by
  unfold vehicle_arrival_time
  cases hl : veh.visits.getLast? with
  | none =>
    have hnil : veh.visits = [] := by
      cases hv : veh.visits with
      | nil => rfl
      | cons x xs => rw [hv] at hl; simp at hl
    simp [hl, hnil]
  | some lst =>
    have hne : veh.visits ≠ [] := by
      intro hv
      rw [hv] at hl
      simp at hl
    cases ht : lst.arrival_time with
    | none => simp [calculate_departure_time, ht, hne]
    | some t => simp [calculate_departure_time, ht, hne]

/-- C10: the matrix reports initialized exactly when it has at least one
entry; initializing with an empty location list builds the empty matrix,
which is literally `clear_driving_time_matrix` and reports uninitialized. -/
theorem claim_C10_empty_init_is_clear :
    (∀ m : DrivingTimeMatrix, is_driving_time_matrix_initialized m = true ↔ m ≠ []) ∧
    init_driving_time_matrix [] = clear_driving_time_matrix ∧
    is_driving_time_matrix_initialized (init_driving_time_matrix []) = false ∧
    is_driving_time_matrix_initialized clear_driving_time_matrix = false := by
  refine ⟨fun m => ?_, rfl, rfl, rfl⟩
  unfold is_driving_time_matrix_initialized
  cases m with
  | nil => simp
  | cons x xs => simp
